import Mathlib

/-
Verification of the `smart-ptr` owning-pointer crate.

Shallow embedding conventions:
- A raw pointer `*mut T` is an address, modelled as `Nat`; the null pointer
  is address `0`.
- The observable effects of a lifecycle (deleter invocations, payload
  destructor runs, memory reclamation) are recorded as a `List Event` trace.
- A Rust panic in a constructor is modelled as the `none` branch of an
  `Option` result; `Unique::from_ptr` returns `Option` in Rust itself, and
  its `None` is modelled by the same `none` (doc comments on each
  definition say which reading applies).
- `mem::forget` (used by `release`) is modelled by the scenario simply not
  emitting the drop trace of the forgotten value.
-/

set_option autoImplicit false

namespace SmartPtr

/-- Observable lifecycle events.
`disposeCall del addr` records that the deleter identified by `del` was
invoked (its `delete` entered) with argument `addr`; `teardown addr`
records that the payload value stored at `addr` ran its own destructor;
`dealloc addr` records that the backing memory at `addr` was returned to
the allocator. -/
inductive Event where
  | disposeCall (del : Nat) (addr : Nat)
  | teardown (addr : Nat)
  | dealloc (addr : Nat)
deriving DecidableEq

/-- Number of occurrences of the event `e` in a trace. -/
def countE (e : Event) : List Event → Nat
  | [] => 0
  | x :: xs => (if x = e then 1 else 0) + countE e xs

theorem countE_append (e : Event) (l₁ l₂ : List Event) :
    countE e (l₁ ++ l₂) = countE e l₁ + countE e l₂ := by
  induction l₁ with
  | nil => simp [countE]
  | cons x xs ih => simp [countE, ih]; omega

theorem countE_eq_zero_of_not_mem (e : Event) (l : List Event) (h : e ∉ l) :
    countE e l = 0 := by
  induction l with
  | nil => rfl
  | cons x xs ih =>
    simp only [List.mem_cons, not_or] at h
    have hx : ¬ x = e := fun hx => h.1 hx.symm
    simp [countE, if_neg hx, ih h.2]

/-- A deleter: the embedding of a type implementing the `Deleter` trait.
In the source the deleter is a type-level parameter whose `delete` is
resolved statically; here a `Deleter` value carries an identifying tag
`id` (standing for the concrete Rust type) and `run addr`, the trace of
effects its `delete` performs on the address `addr`.  The `disposeCall`
marker for the invocation itself is emitted by the caller (`Drop`),
not by `run`. -/
structure Deleter where
  id : Nat
  run : Nat → List Event

/-- Embedding of `Unique<'a, T, D>` from `src/unique.rs`.  The Rust
struct is `repr(transparent)`: it stores exactly one field,
`inner: ptr::NonNull<T>`, plus a zero-sized `PhantomData` for the deleter
type; accordingly the embedding stores exactly one address. -/
structure Unique where
  inner : Nat
deriving DecidableEq

/-- `Unique::from_ptr_unchecked`: stores the pointer without any check.
The source marks it `unsafe`; its documented precondition is that the
pointer is non-null. -/
def Unique.from_ptr_unchecked (ptr : Nat) : Unique :=
  ⟨ptr⟩

/-- `Unique::new`: asserts the pointer is non-null, then delegates to
`from_ptr_unchecked`.  The `none` branch models the `assert!` panic. -/
def Unique.new (ptr : Nat) : Option Unique :=
  if ptr = 0 then none else some (Unique.from_ptr_unchecked ptr)

/-- `Unique::from_ptr`: returns Rust `None` (modelled as `none`) on a null
pointer, otherwise `Some` of `from_ptr_unchecked`. -/
def Unique.from_ptr (ptr : Nat) : Option Unique :=
  if ptr = 0 then none else some (Unique.from_ptr_unchecked ptr)

/-- `Unique::get`: returns the underlying raw pointer. -/
def Unique.get (u : Unique) : Nat :=
  u.inner

/-- `Unique::cast::<N>`: reinterprets the stored address as `*mut N`; a
bit-preserving view change, so in the embedding it returns the same
address. -/
def Unique.cast (u : Unique) : Nat :=
  u.inner

/-- `Unique::const_cast::<N>`: as `cast`, but yielding a `*const N`. -/
def Unique.const_cast (u : Unique) : Nat :=
  u.inner

/-- `Unique::swap`: `mem::swap(&mut self.inner, &mut other.inner)` —
exchanges the two stored addresses and touches nothing else.  The
embedding returns the pair (new self, new other). -/
def Unique.swap (a b : Unique) : Unique × Unique :=
  (⟨b.inner⟩, ⟨a.inner⟩)

/-- `Unique::release`: returns the stored address and `mem::forget`s the
instance, so its `Drop` never runs.  Scenarios model the forgetting by
emitting no drop trace for a released instance. -/
def Unique.release (u : Unique) : Nat :=
  u.inner

/-- `Drop for Unique`: the entire drop glue is the single call
`D::delete::<T>(self.inner.as_ptr())`.  The trace is the invocation
marker followed by the effects of the deleter body.  `Unique` itself
never runs the payload destructor; if the payload is to be torn down,
the deleter body must do it. -/
def Unique.drop (D : Deleter) (u : Unique) : List Event :=
  Event.disposeCall D.id u.inner :: D.run u.inner

/-- `From<&'a mut T> for Unique<'a, T, ()>`: adopts the address of a
borrowed value via `from_ptr_unchecked`.  A Rust reference is always
non-null, which scenarios record as a hypothesis on the address. -/
def Unique.from_mut (addr : Nat) : Unique :=
  Unique.from_ptr_unchecked addr

/-- `impl Deleter for ()`: the no-op deleter, whose `delete` body does
nothing. -/
def unitDeleter : Deleter :=
  ⟨0, fun _ => []⟩

/-- A disposal-counting deleter, as used by the spec's testable
properties: its body has no effect of its own, so its invocations are
exactly the `disposeCall` markers bearing its tag. -/
def countingDeleter (tag : Nat) : Deleter :=
  ⟨tag, fun _ => []⟩

/-- `boxed_deleter::<T>` from `src/lib.rs`: given the raw address, runs
`Box::from_raw(ptr as *mut T)` and lets the temporary box drop, which
runs the payload's destructor and then returns the memory to the global
allocator.  `tear addr` is the trace of the payload type's destructor
(`[]` for a payload with trivial drop, `[Event.teardown addr]` for one
whose destructor is observable). -/
def boxed_deleter (tear : Nat → List Event) (addr : Nat) : List Event :=
  tear addr ++ [Event.dealloc addr]

/-- Tag standing for the Rust type `DefaultDeleter`. -/
def defaultDeleterTag : Nat :=
  2

/-- `impl Deleter for DefaultDeleter` from `src/lib.rs`: its `delete`
body simply delegates to `boxed_deleter::<T>`. -/
def DefaultDeleter (tear : Nat → List Event) : Deleter :=
  ⟨defaultDeleterTag, fun addr => boxed_deleter tear addr⟩

/-- The destructor trace of a payload with observable, non-trivial
teardown: dropping the value at `addr` emits one `teardown` event. -/
def observableTear (addr : Nat) : List Event :=
  [Event.teardown addr]

/-- Scenario: construct a `Unique` from the raw address `a` with the
trusting constructor `new` and let it fall out of scope.  On a null
address the constructor panics before any deleter is involved, so the
trace is empty; otherwise the trace is the instance's drop glue. -/
def scopeRun (D : Deleter) (a : Nat) : List Event :=
  match Unique.new a with
  | none => []
  | some u => Unique.drop D u

/-- Scenario: as `scopeRun`, but through the checked constructor
`from_ptr`; a null address yields Rust `None` and an empty trace. -/
def checkedScopeRun (D : Deleter) (a : Nat) : List Event :=
  match Unique.from_ptr a with
  | none => []
  | some u => Unique.drop D u

/-- Scenario: construct from `a` with `new`, then immediately `release`.
The result is the released raw address (or `none` if construction
panicked) paired with the trace, which is empty because `release`
forgets the instance before its `Drop` can run. -/
def releaseRun (a : Nat) : Option Nat × List Event :=
  match Unique.new a with
  | none => (none, [])
  | some u => (some (Unique.release u), [])

/-- Scenario: construct two instances from `a` and `b`, swap them, and
let both fall out of scope; the first instance uses deleter `D₁` and the
second `D₂`. -/
def swapDropRun (D₁ D₂ : Deleter) (a b : Nat) : List Event :=
  match Unique.new a, Unique.new b with
  | some x, some y =>
    let p := Unique.swap x y
    Unique.drop D₁ p.1 ++ Unique.drop D₂ p.2
  | _, _ => []

/-- Scenario: construct two instances from `a` and `b`, swap them, then
release both.  Result: the pair of released addresses and the trace. -/
def swapReleaseRun (a b : Nat) : Option (Nat × Nat) × List Event :=
  match Unique.new a, Unique.new b with
  | some x, some y =>
    let p := Unique.swap x y
    (some (Unique.release p.1, Unique.release p.2), [])
  | _, _ => (none, [])

/-- Scenario for the no-op deleter over a borrowed value (test
`should_handle_mut_ref` / the spec's end-to-end flag scenario): a stack
value with observable teardown lives at `a`; a `Unique<_, ()>` is built
from `&mut` to it and dropped, then the scope owning the stack value
ends, running the value's own destructor.  The trace concatenates the
wrapper's drop glue with the stack value's destructor. -/
def noopBorrowRun (a : Nat) : List Event :=
  Unique.drop unitDeleter (Unique.from_mut a) ++ observableTear a

/-- A model of the global allocator's heap: `next` is the next fresh
address to hand out, `cells` maps live allocated addresses to their
contents.  `Box::new` allocates a fresh cell; dropping a box removes
its cell. -/
structure Heap (α : Type) where
  next : Nat
  cells : List (Nat × α)
deriving DecidableEq

/-- The empty heap; address `0` is never handed out, so the null address
never aliases an allocation. -/
def Heap.empty (α : Type) : Heap α :=
  ⟨1, []⟩

/-- Allocation (`Box::new`): returns the fresh address and the extended
heap. -/
def Heap.alloc {α : Type} (h : Heap α) (v : α) : Nat × Heap α :=
  (h.next, ⟨h.next + 1, (h.next, v) :: h.cells⟩)

/-- Association-list lookup over heap cells. -/
def lookupCell {α : Type} (a : Nat) : List (Nat × α) → Option α
  | [] => none
  | c :: cs => if c.1 = a then some c.2 else lookupCell a cs

/-- Reads the content of the allocation at address `a`, if one is
live. -/
def Heap.get {α : Type} (h : Heap α) (a : Nat) : Option α :=
  lookupCell a h.cells

/-- Removes the allocation at address `a` (the deallocation half of
dropping a `Box`). -/
def Heap.free {α : Type} (h : Heap α) (a : Nat) : Heap α :=
  ⟨h.next, h.cells.filter (fun c => decide (c.1 ≠ a))⟩

/-- Well-formedness of the heap model: the null address `0` is never the
next fresh address, and every live allocation sits at a non-null address
strictly below `next`. -/
def Heap.wf {α : Type} (h : Heap α) : Prop :=
  h.next ≠ 0 ∧ ∀ c ∈ h.cells, c.1 ≠ 0 ∧ c.1 < h.next

instance {α : Type} [DecidableEq α] (h : Heap α) : Decidable h.wf := by
  unfold Heap.wf
  infer_instance

/-- Dropping a `Box` rooted at address `a`: the payload's destructor
runs first (trace `tear a`), then the memory is returned to the
allocator. -/
def boxDrop {α : Type} (tear : Nat → List Event) (h : Heap α) (a : Nat) :
    Heap α × List Event :=
  (h.free a, tear a ++ [Event.dealloc a])

/-- `From<Box<T>> for Global<T>`: `Box::into_raw` hands over the raw
address, which is adopted with `from_ptr_unchecked`; no effect on the
heap and no events. -/
def fromBox (a : Nat) : Unique :=
  Unique.from_ptr_unchecked a

/-- `Global::boxed`: `Box::new(val).into()` — allocates and adopts the
fresh box. -/
def Global.boxed {α : Type} (h : Heap α) (v : α) : Unique × Heap α :=
  let p := h.alloc v
  (fromBox p.1, p.2)

/-- `Global::into_boxed`: `release` hands the raw address out (the
instance is forgotten, so its deleter never runs), and `Box::from_raw`
rebuilds a box rooted at that same address.  No heap change, no
events. -/
def Global.into_boxed (u : Unique) : Nat :=
  Unique.release u

/-- Result of the `Box`-round-trip scenario. -/
structure RoundTripResult (α : Type) where
  boxAddr : Nat
  retAddr : Nat
  content : Option α
  log : List Event

/-- Scenario for the round trip: `Box::new v` on a fresh heap, adopt it
into `Global` via `From<Box<T>>`, convert back with `into_boxed`, observe
the returned box's address and content, then let the returned box drop
at the end of the scenario.  The log covers the entire scenario. -/
def roundTrip {α : Type} (tear : Nat → List Event) (v : α) :
    RoundTripResult α :=
  let p := (Heap.empty α).alloc v
  let u := fromBox p.1
  let ret := Global.into_boxed u
  let q := boxDrop tear p.2 ret
  ⟨p.1, ret, p.2.get ret, q.2⟩

/-- `Clone for Global<T>` from `src/unique.rs`: views the allocation at
`self.get()` as a `ManuallyDrop<Box<T>>` (so the view is never dropped),
clones the box — which allocates a fresh cell holding a duplicate of the
content — and adopts the fresh box via `From<Box<T>>`.  The `none`
branch models the safety precondition that `self` points at a live
allocation.  The trace component is the events the clone emits: none
(nothing is dropped or freed). -/
def Global.clone {α : Type} (h : Heap α) (u : Unique) :
    Option (Unique × Heap α × List Event) :=
  match h.get u.inner with
  | none => none
  | some v =>
    let p := h.alloc v
    some (fromBox p.1, p.2, [])

/-- A Rust raw-pointer value: either a thin pointer (a bare address, the
representation of `*mut T` for `T: Sized`) or a fat pointer carrying the
address together with a metadata word (length or vtable), the
representation of `*mut T` for a dynamically-sized `T`. -/
inductive RawPtr where
  | thin (addr : Nat)
  | fat (addr : Nat) (meta : Nat)
deriving DecidableEq

/-- The address component of a raw pointer. -/
def RawPtr.addr : RawPtr → Nat
  | .thin a => a
  | .fat a _ => a

/-- The cast `ptr as *mut u8` performed by callers handing a pointer to
`boxed_deleter`: it keeps only the address, discarding any fat-pointer
metadata. -/
def eraseToBytePtr (p : RawPtr) : Nat :=
  p.addr

/-- The handle `boxed_deleter::<T>` rebuilds from a pointer whose
original representation was `p`.  The source signature is
`fn boxed_deleter<T>(ptr: *mut u8)` — `T` carries an implicit `Sized`
bound and the argument is a byte address — and its body runs
`Box::from_raw(ptr as *mut T)`, so the reconstructed handle is always a
thin pointer rooted at the received address. -/
def boxed_deleterReconstruct (p : RawPtr) : RawPtr :=
  RawPtr.thin (eraseToBytePtr p)

theorem lookupCell_eq_some_mem {α : Type} {a : Nat} {v : α}
    {cs : List (Nat × α)} (h : lookupCell a cs = some v) : (a, v) ∈ cs := by
  induction cs with
  | nil => simp [lookupCell] at h
  | cons c cs ih =>
    by_cases hc : c.1 = a
    · simp only [lookupCell, if_pos hc] at h
      cases h
      have hcc : (a, c.2) = c := by
        cases c
        simp_all
      rw [hcc]
      exact List.mem_cons_self _ _
    · simp only [lookupCell, if_neg hc] at h
      exact List.mem_cons_of_mem _ (ih h)

theorem Heap.get_wf_bounds {α : Type} {h : Heap α} {a : Nat} {v : α}
    (hwf : h.wf) (hget : h.get a = some v) : a ≠ 0 ∧ a < h.next := by
  have hmem : (a, v) ∈ h.cells := lookupCell_eq_some_mem hget
  exact hwf.2 (a, v) hmem

theorem Heap.get_alloc_fresh {α : Type} (h : Heap α) (v : α) :
    (h.alloc v).2.get h.next = some v := by
  simp [Heap.alloc, Heap.get, lookupCell]

theorem Heap.get_alloc_ne {α : Type} (h : Heap α) (v : α) {a : Nat}
    (ha : a ≠ h.next) : (h.alloc v).2.get a = h.get a := by
  have : ¬ h.next = a := fun hx => ha hx.symm
  simp [Heap.alloc, Heap.get, lookupCell, if_neg this]

theorem Heap.alloc_wf {α : Type} {h : Heap α} (hwf : h.wf) (v : α) :
    (h.alloc v).2.wf := by
  constructor
  · simp [Heap.alloc]
  · intro c hc
    simp only [Heap.alloc, List.mem_cons] at hc
    rcases hc with hc | hc
    · subst hc
      exact ⟨hwf.1, Nat.lt_succ_self _⟩
    · have := hwf.2 c hc
      exact ⟨this.1, Nat.lt_succ_of_lt this.2⟩

/-- C1: for every non-null address and every deleter, letting an owning
`Unique` go out of scope invokes the deleter's `delete` exactly once on
that address (clause 1, counted by `disposeCall` markers, for any deleter
whose own body does not forge invocation markers); with the
allocator-aware `DefaultDeleter` over a payload with non-trivial
teardown, the payload's destructor runs before the reclamation of the
backing memory is observed (clause 2: the scope trace is exactly
invocation, then `teardown`, then `dealloc`); and if `release` already
occurred, nothing at all is disposed (clause 3: the release scenario's
trace is empty). -/
theorem C1_scope_end_disposes_exactly_once :
    (∀ (D : Deleter) (a : Nat), a ≠ 0 →
      (∀ x : Nat, Event.disposeCall D.id a ∉ D.run x) →
      countE (Event.disposeCall D.id a) (scopeRun D a) = 1)
    ∧ (∀ a : Nat, a ≠ 0 →
      scopeRun (DefaultDeleter observableTear) a =
        [Event.disposeCall defaultDeleterTag a, Event.teardown a,
          Event.dealloc a])
    ∧ (∀ a : Nat, a ≠ 0 → (releaseRun a).2 = []) := by
  refine ⟨fun D a ha hD => ?_, fun a ha => ?_, fun a ha => ?_⟩
  · simp only [scopeRun, Unique.new, if_neg ha, Unique.drop,
      Unique.from_ptr_unchecked, countE, if_pos rfl]
    rw [countE_eq_zero_of_not_mem _ _ (hD a)]
    simp
  · simp [scopeRun, Unique.new, if_neg ha, Unique.drop, DefaultDeleter,
      boxed_deleter, observableTear, Unique.from_ptr_unchecked]
  · simp [releaseRun, Unique.new, if_neg ha]

/-- Witness for C1 at address 5, with a counting deleter tagged 7. -/
theorem C1_scope_end_disposes_exactly_once_w :
    countE (Event.disposeCall 7 5) (scopeRun (countingDeleter 7) 5) = 1 ∧
    scopeRun (DefaultDeleter observableTear) 5 =
      [Event.disposeCall defaultDeleterTag 5, Event.teardown 5,
        Event.dealloc 5] ∧
    (releaseRun 5).2 = [] :=
  ⟨C1_scope_end_disposes_exactly_once.1 (countingDeleter 7) 5 (by decide)
      (fun x => by simp [countingDeleter]),
   C1_scope_end_disposes_exactly_once.2.1 5 (by decide),
   C1_scope_end_disposes_exactly_once.2.2 5 (by decide)⟩

/-- C2: for every non-null address `a`, constructing with `new` and
immediately calling `release` hands back exactly the address `a`, and the
trace of the whole scenario is empty — so any deleter invocation count
over it is zero: no disposal ever occurs for that instance. -/
theorem C2_release_returns_address_without_disposal (a : Nat)
    (ha : a ≠ 0) :
    releaseRun a = (some a, []) ∧
    ∀ e : Event, countE e (releaseRun a).2 = 0 := by
  have hrun : releaseRun a = (some a, []) := by
    simp [releaseRun, Unique.new, if_neg ha, Unique.release,
      Unique.from_ptr_unchecked]
  exact ⟨hrun, fun e => by rw [hrun]; rfl⟩

/-- Witness for C2 at address 5. -/
theorem C2_release_returns_address_without_disposal_w :
    releaseRun 5 = (some 5, []) ∧
    ∀ e : Event, countE e (releaseRun 5).2 = 0 :=
  C2_release_returns_address_without_disposal 5 (by decide)

/-- C3: construction from the null address fails under both policies
without touching any deleter — `new` panics (modelled by `none`) and
`from_ptr` returns Rust `None` — and the corresponding scope scenarios
emit no events at all; for every non-null address, both constructors
produce an instance holding exactly that address. -/
theorem C3_null_construction_fails_both_policies :
    Unique.new 0 = none ∧
    Unique.from_ptr 0 = none ∧
    (∀ D : Deleter, scopeRun D 0 = []) ∧
    (∀ D : Deleter, checkedScopeRun D 0 = []) ∧
    (∀ a : Nat, a ≠ 0 →
      Unique.new a = some (Unique.from_ptr_unchecked a) ∧
      Unique.from_ptr a = some (Unique.from_ptr_unchecked a) ∧
      (Unique.from_ptr_unchecked a).inner = a) := by
  refine ⟨rfl, rfl, fun D => rfl, fun D => rfl, fun a ha => ?_⟩
  exact ⟨by simp [Unique.new, if_neg ha], by simp [Unique.from_ptr, if_neg ha],
    rfl⟩

/-- Witness for C3's non-null clause at address 5. -/
theorem C3_null_construction_fails_both_policies_w :
    Unique.new 5 = some (Unique.from_ptr_unchecked 5) ∧
    Unique.from_ptr 5 = some (Unique.from_ptr_unchecked 5) ∧
    (Unique.from_ptr_unchecked 5).inner = 5 :=
  C3_null_construction_fails_both_policies.2.2.2.2 5 (by decide)

/-- C4: every public construction path stores a non-null address.  The
checked (`from_ptr`) and trusting (`new`) constructors reject null
outright; `from_ptr_unchecked` and `From<&mut T>` (`from_mut`) carry the
source's documented non-null precondition; adoption of an allocator
handle (`Global::boxed`, and by extension `From<Box<T>>` of any live
allocation) yields a non-null address because a well-formed heap never
allocates at address 0; and the address `Clone for Global` stores is
likewise non-null. -/
theorem C4_stored_address_never_null :
    (∀ (a : Nat) (u : Unique), Unique.new a = some u → u.inner ≠ 0)
    ∧ (∀ (a : Nat) (u : Unique), Unique.from_ptr a = some u → u.inner ≠ 0)
    ∧ (∀ a : Nat, a ≠ 0 → (Unique.from_ptr_unchecked a).inner ≠ 0)
    ∧ (∀ a : Nat, a ≠ 0 → (Unique.from_mut a).inner ≠ 0)
    ∧ (∀ (α : Type) (h : Heap α) (v : α), h.wf →
        ((Global.boxed h v).1).inner ≠ 0)
    ∧ (∀ (α : Type) (h : Heap α) (u u₂ : Unique) (h₂ : Heap α)
        (tr : List Event), h.wf → Global.clone h u = some (u₂, h₂, tr) →
        u₂.inner ≠ 0) := by
  refine ⟨fun a u hu => ?_, fun a u hu => ?_, fun a ha => ha, fun a ha => ha,
    fun α h v hwf => hwf.1, fun α h u u₂ h₂ tr hwf hc => ?_⟩
  · by_cases ha : a = 0
    · simp [Unique.new, ha] at hu
    · simp only [Unique.new, if_neg ha, Option.some.injEq] at hu
      rw [← hu]
      exact ha
  · by_cases ha : a = 0
    · simp [Unique.from_ptr, ha] at hu
    · simp only [Unique.from_ptr, if_neg ha, Option.some.injEq] at hu
      rw [← hu]
      exact ha
  · revert hc
    unfold Global.clone
    cases hg : h.get u.inner with
    | none => intro hc; cases hc
    | some v =>
      intro hc
      simp only [Option.some.injEq, Prod.mk.injEq] at hc
      have : u₂.inner = h.next := by rw [← hc.1]; rfl
      rw [this]
      exact hwf.1

/-- Witness for C4: the trusting constructor at 5, the unchecked paths at
5, boxed allocation and clone on a concrete well-formed heap. -/
theorem C4_stored_address_never_null_w :
    (Unique.from_ptr_unchecked 5).inner ≠ 0 ∧
    (Unique.from_mut 5).inner ≠ 0 ∧
    ((Global.boxed (Heap.empty Nat) 37).1).inner ≠ 0 ∧
    (Unique.new 5 = some (Unique.from_ptr_unchecked 5) →
      (Unique.from_ptr_unchecked 5).inner ≠ 0) :=
  ⟨C4_stored_address_never_null.2.2.1 5 (by decide),
   C4_stored_address_never_null.2.2.2.1 5 (by decide),
   C4_stored_address_never_null.2.2.2.2.1 Nat (Heap.empty Nat) 37
     (by decide),
   C4_stored_address_never_null.1 5 (Unique.from_ptr_unchecked 5)⟩

/-- C5: `swap` exchanges exactly the two stored addresses; a
create–swap–release run shows it triggers no disposal (empty trace) and
that afterwards each instance observably holds the other's original
address; in the create–swap–drop run each instance's deleter disposes
the *other* instance's original address; and swapping twice restores the
original instances. -/
theorem C5_swap_exchanges_addresses :
    (∀ x y : Unique, Unique.swap x y =
      (Unique.from_ptr_unchecked y.inner, Unique.from_ptr_unchecked x.inner))
    ∧ (∀ a b : Nat, a ≠ 0 → b ≠ 0 →
        swapReleaseRun a b = (some (b, a), []))
    ∧ (∀ (t₁ t₂ a b : Nat), a ≠ 0 → b ≠ 0 →
        swapDropRun (countingDeleter t₁) (countingDeleter t₂) a b =
          [Event.disposeCall t₁ b, Event.disposeCall t₂ a])
    ∧ (∀ x y : Unique,
        Unique.swap (Unique.swap x y).1 (Unique.swap x y).2 = (x, y)) := by
  refine ⟨fun x y => rfl, fun a b ha hb => ?_, fun t₁ t₂ a b ha hb => ?_,
    fun x y => rfl⟩
  · simp [swapReleaseRun, Unique.new, if_neg ha, if_neg hb, Unique.swap,
      Unique.release, Unique.from_ptr_unchecked]
  · simp [swapDropRun, Unique.new, if_neg ha, if_neg hb, Unique.swap,
      Unique.drop, countingDeleter, Unique.from_ptr_unchecked]

/-- Witness for C5 at addresses 5 and 9 with counting deleters 1, 2. -/
theorem C5_swap_exchanges_addresses_w :
    swapReleaseRun 5 9 = (some (9, 5), []) ∧
    swapDropRun (countingDeleter 1) (countingDeleter 2) 5 9 =
      [Event.disposeCall 1 9, Event.disposeCall 2 5] :=
  ⟨C5_swap_exchanges_addresses.2.1 5 9 (by decide) (by decide),
   C5_swap_exchanges_addresses.2.2.1 1 2 5 9 (by decide) (by decide)⟩

/-- C6: adopting a freshly allocated box into `Global` and converting
back with `into_boxed` returns a handle at the same address with the
same observable content, and over the whole scenario — conversion plus
the eventual drop of the returned box — the payload is deallocated
exactly once and torn down exactly once (no double disposal). -/
theorem C6_box_round_trip (α : Type) (v : α) :
    (roundTrip observableTear v).retAddr =
      (roundTrip observableTear v).boxAddr ∧
    (roundTrip observableTear v).content = some v ∧
    countE (Event.dealloc (roundTrip observableTear v).boxAddr)
      (roundTrip observableTear v).log = 1 ∧
    countE (Event.teardown (roundTrip observableTear v).boxAddr)
      (roundTrip observableTear v).log = 1 :=
  ⟨rfl, rfl, rfl, rfl⟩

/-- Witness for C6 with the concrete payload 37. -/
theorem C6_box_round_trip_w :
    (roundTrip observableTear (37 : Nat)).retAddr =
      (roundTrip observableTear (37 : Nat)).boxAddr ∧
    (roundTrip observableTear (37 : Nat)).content = some 37 ∧
    countE (Event.dealloc (roundTrip observableTear (37 : Nat)).boxAddr)
      (roundTrip observableTear (37 : Nat)).log = 1 ∧
    countE (Event.teardown (roundTrip observableTear (37 : Nat)).boxAddr)
      (roundTrip observableTear (37 : Nat)).log = 1 :=
  C6_box_round_trip Nat 37

/-- C7 counterexample: `boxed_deleter` cannot reconstruct a fat pointer.
A caller holding the fat handle `fat 4 2` (address 4, metadata word 2)
can only pass the erased byte address, and the handle the deleter
rebuilds is the thin pointer at 4, not the original fat
representation. -/
theorem C7_cex_fat_pointer_not_reconstructed :
    boxed_deleterReconstruct (RawPtr.fat 4 2) = RawPtr.thin 4 ∧
    boxed_deleterReconstruct (RawPtr.fat 4 2) ≠ RawPtr.fat 4 2 := by
  decide

/-- C7 (amended): `boxed_deleter`, given the raw address of an allocation
originally made as a *sized* type `T`, reconstructs an owning `Box<T>`
handle at exactly that address so that the payload's destructor and the
deallocation both run, destructor first; `DefaultDeleter::delete`
delegates to it; but it accepts only a single thin byte address
(`*mut u8`, with `T` implicitly `Sized`), so it is not generic over
dynamically-sized payloads and never rebuilds a fat pointer. -/
theorem C7_boxed_deleter_thin_reconstruction (a : Nat) (ha : a ≠ 0) :
    (∀ tear : Nat → List Event,
      (DefaultDeleter tear).run a = boxed_deleter tear a) ∧
    boxed_deleterReconstruct (RawPtr.thin a) = RawPtr.thin a ∧
    boxed_deleter observableTear a =
      [Event.teardown a, Event.dealloc a] ∧
    (∀ p : RawPtr, boxed_deleterReconstruct p = RawPtr.thin p.addr) :=
  ⟨fun tear => rfl, rfl, rfl, fun p => rfl⟩

/-- Witness for C7's amended theorem at address 4. -/
theorem C7_boxed_deleter_thin_reconstruction_w :
    boxed_deleterReconstruct (RawPtr.thin 4) = RawPtr.thin 4 ∧
    boxed_deleter observableTear 4 =
      [Event.teardown 4, Event.dealloc 4] :=
  ⟨(C7_boxed_deleter_thin_reconstruction 4 (by decide)).2.1,
   (C7_boxed_deleter_thin_reconstruction 4 (by decide)).2.2.1⟩

/-- C8: in the borrowed-reference scenario with the no-op deleter `()`,
dropping the wrapper contributes only the (effect-free) deleter
invocation; by the end of the scenario the payload's own teardown has
still run exactly once — performed by the scope that owns the borrowed
value — and no memory reclamation happens anywhere, so in particular no
double-reclamation can occur. -/
theorem C8_noop_deleter_skips_only_reclamation (a : Nat) (ha : a ≠ 0) :
    noopBorrowRun a = [Event.disposeCall 0 a, Event.teardown a] ∧
    countE (Event.teardown a) (noopBorrowRun a) = 1 ∧
    (∀ b : Nat, countE (Event.dealloc b) (noopBorrowRun a) = 0) := by
  have htr : noopBorrowRun a = [Event.disposeCall 0 a, Event.teardown a] :=
    rfl
  refine ⟨htr, ?_, fun b => ?_⟩
  · rw [htr]
    simp [countE]
  · rw [htr]
    simp [countE]

/-- Witness for C8 at address 5. -/
theorem C8_noop_deleter_skips_only_reclamation_w :
    noopBorrowRun 5 = [Event.disposeCall 0 5, Event.teardown 5] ∧
    countE (Event.teardown 5) (noopBorrowRun 5) = 1 ∧
    (∀ b : Nat, countE (Event.dealloc b) (noopBorrowRun 5) = 0) :=
  C8_noop_deleter_skips_only_reclamation 5 (by decide)

/-- C9: on a well-formed heap, cloning a `Global` that points at a live
allocation succeeds and produces a brand-new address — non-null and
distinct from the original — holding a duplicate of the content; the
clone emits no events (so nothing is disposed) and the original
allocation is left untouched. -/
theorem C9_clone_allocates_fresh_address (α : Type) (h : Heap α)
    (u : Unique) (v : α) (hwf : h.wf) (hget : h.get u.inner = some v) :
    ∃ (u₂ : Unique) (h₂ : Heap α),
      Global.clone h u = some (u₂, h₂, []) ∧
      u₂.inner ≠ u.inner ∧ u₂.inner ≠ 0 ∧
      h₂.get u₂.inner = some v ∧
      h₂.get u.inner = some v := by
  have hb := Heap.get_wf_bounds hwf hget
  refine ⟨fromBox (h.alloc v).1, (h.alloc v).2, ?_, ?_, hwf.1, ?_, ?_⟩
  · unfold Global.clone
    rw [hget]
  · have : (fromBox (h.alloc v).1).inner = h.next := rfl
    rw [this]
    exact fun hx => Nat.lt_irrefl _ (hx ▸ hb.2)
  · exact Heap.get_alloc_fresh h v
  · rw [Heap.get_alloc_ne h v (Nat.ne_of_lt hb.2)]
    exact hget

/-- Witness for C9: a concrete heap with one live cell at address 1
holding 37; the clone lands at the fresh address 2. -/
theorem C9_clone_allocates_fresh_address_w :
    ∃ (u₂ : Unique) (h₂ : Heap Nat),
      Global.clone (Heap.mk 2 [(1, 37)]) (Unique.mk 1) =
        some (u₂, h₂, []) ∧
      u₂.inner ≠ (Unique.mk 1).inner ∧ u₂.inner ≠ 0 ∧
      h₂.get u₂.inner = some 37 ∧
      h₂.get (Unique.mk 1).inner = some 37 :=
  C9_clone_allocates_fresh_address Nat (Heap.mk 2 [(1, 37)]) (Unique.mk 1)
    37 (by decide) rfl

/-- C10: a `Unique` instance is its single stored address and nothing
else — instances with equal addresses are equal; the deleter is purely
type-level, so the drop trace of an instance is determined by the
deleter type and the stored address alone (two instances of the same
type at the same address dispose identically); `swap` exchanges only the
addresses; and `release` hands back only the address, which `get` also
observes. -/
theorem C10_address_is_whole_state :
    (∀ u v : Unique, u.inner = v.inner → u = v)
    ∧ (∀ (D : Deleter) (u v : Unique), u.inner = v.inner →
        Unique.drop D u = Unique.drop D v)
    ∧ (∀ x y : Unique, (Unique.swap x y).1.inner = y.inner ∧
        (Unique.swap x y).2.inner = x.inner)
    ∧ (∀ u : Unique, Unique.release u = u.inner ∧ Unique.get u = u.inner) := by
  refine ⟨fun u v huv => ?_, fun D u v huv => ?_, fun x y => ⟨rfl, rfl⟩,
    fun u => ⟨rfl, rfl⟩⟩
  · cases u
    cases v
    simp_all
  · unfold Unique.drop
    rw [huv]

/-- Witness for C10 at two structurally equal instances holding 5. -/
theorem C10_address_is_whole_state_w :
    Unique.mk 5 = Unique.mk 5 ∧
    Unique.drop unitDeleter (Unique.mk 5) =
      Unique.drop unitDeleter (Unique.mk 5) :=
  ⟨C10_address_is_whole_state.1 (Unique.mk 5) (Unique.mk 5) rfl,
   C10_address_is_whole_state.2.1 unitDeleter (Unique.mk 5) (Unique.mk 5)
     rfl⟩

end SmartPtr
